import Mathlib

/-!
# Controller report rate tester: a shallow embedding of `src/main.cpp`

The development models the device session (`openJoystick`, `closeJoystick`,
`readJoystickInput`), the sample comparison `isSameSample` and the polling
driver `main` of `src/main.cpp`, and proves properties of them.

Modelling conventions.

* C++ `int`, `long` and the `__u16`/`__s32` fields of `input_event` are
  mathematical integers.  Signed overflow is undefined behaviour in C++, so the
  model describes the executions in which no `int` operation overflows.
* C++ `float` is `F32`: a finite value is carried as an exact rational, and
  the IEEE-754 special values `+Inf`, `-Inf` and `NaN` are separate
  constructors.  Rounding of finite results is not modelled (arithmetic on
  finite values is exact); the special values follow IEEE-754.
* System calls are inputs of the model: the outcome of `open` and of the
  `ioctl` queries is a `Device`, the outcome of every `read` is an
  `Option input_event` (`none` when `read` returns a value `<= 0`), and the
  values returned by `high_resolution_clock::now()` are a function from the
  number of the call to a time point in nanoseconds.  Calls of `close` are
  recorded in a log of the file descriptors passed to it.
* Text written to `std::cout` is not modelled, except for the rate lines, which
  are recorded as `Report` values.
-/

namespace JoystickRate

/-! ## Floating point values -/

/-- A `float`: an exact finite value or one of the IEEE-754 special values. -/
inductive F32 where
  | fin (q : ℚ)
  | pinf
  | ninf
  | nan
  deriving DecidableEq

namespace F32

/-- Conversion of an integer to `float`, as in `(float)(i)`. -/
def ofInt (i : Int) : F32 := fin i

/-- The infinity with the sign of `s`, or `NaN` when `s` is zero. -/
def signed (s : ℚ) : F32 :=
  if 0 < s then pinf else if s < 0 then ninf else nan

/-- IEEE-754 subtraction. -/
def sub : F32 → F32 → F32
  | fin a, fin b => fin (a - b)
  | fin _, pinf => ninf
  | fin _, ninf => pinf
  | pinf, fin _ => pinf
  | pinf, ninf => pinf
  | ninf, fin _ => ninf
  | ninf, pinf => ninf
  | _, _ => nan

/-- IEEE-754 multiplication. -/
def mul : F32 → F32 → F32
  | fin a, fin b => fin (a * b)
  | fin a, pinf => signed a
  | fin a, ninf => signed (-a)
  | pinf, fin b => signed b
  | ninf, fin b => signed (-b)
  | pinf, pinf => pinf
  | ninf, ninf => pinf
  | pinf, ninf => ninf
  | ninf, pinf => ninf
  | _, _ => nan

/-- IEEE-754 division.  The model has no negative zero: every zero divisor of
the program is a converted integer `0`, that is `+0.0`. -/
def div : F32 → F32 → F32
  | fin a, fin b => if b = 0 then signed a else fin (a / b)
  | fin _, pinf => fin 0
  | fin _, ninf => fin 0
  | pinf, fin b => if 0 ≤ b then pinf else ninf
  | ninf, fin b => if 0 ≤ b then ninf else pinf
  | _, _ => nan

/-- The absolute value, as computed by `fabs`. -/
def abs : F32 → F32
  | fin a => fin |a|
  | pinf => pinf
  | ninf => pinf
  | nan => nan

/-- The comparison `a < b` of IEEE-754: false as soon as one side is `NaN`. -/
def lt : F32 → F32 → Bool
  | fin a, fin b => decide (a < b)
  | fin _, pinf => true
  | ninf, fin _ => true
  | ninf, pinf => true
  | _, _ => false

/-- A value is finite when it is neither an infinity nor `NaN`. -/
def isFinite : F32 → Bool
  | fin _ => true
  | _ => false

end F32

/-! ## Constants -/

/-- The constant `update_interval` of `main.cpp` (samples per window). -/
def update_interval : Int := 100

/-- Event type `EV_KEY` of `linux/input-event-codes.h`. -/
def EV_KEY : Nat := 0x01

/-- Event type `EV_ABS` of `linux/input-event-codes.h`. -/
def EV_ABS : Nat := 0x03

/-- Key code `BTN_JOYSTICK` of `linux/input-event-codes.h`. -/
def BTN_JOYSTICK : Nat := 0x120

/-- Key code `BTN_THUMBR` of `linux/input-event-codes.h`. -/
def BTN_THUMBR : Nat := 0x13e

/-- Axis code `ABS_TOOL_WIDTH` of `linux/input-event-codes.h`. -/
def ABS_TOOL_WIDTH : Nat := 0x1c

/-! ## Data model -/

/-- The kernel's `struct input_event` without its time stamp. -/
structure input_event where
  type : Nat
  code : Nat
  value : Int
  deriving DecidableEq

/-- The `struct Axis` of `main.cpp`. -/
structure Axis where
  min : Int
  max : Int
  value : F32
  deriving DecidableEq

/-- The `struct Joystick` of `main.cpp`, with `maxButtons = maxAxes = 32`. -/
structure Joystick where
  connected : Bool
  buttons : Fin 32 → Bool
  axes : Fin 32 → Axis
  name : String
  file : Int
  hasRumble : Bool
  rumbleEffectID : Int

/-- What the system calls of `openJoystick` return for a device: the result of
`open` (`-1` on failure, with the text of `strerror(errno)`), the name, the
answer of `EVIOCGABS` for each axis code (`none` when the `ioctl` returns `-1`,
otherwise minimum and maximum) and the answer of `EVIOCSFF` (`none` when it
returns `-1`, otherwise the effect id). -/
structure Device where
  path : String
  file : Int
  errstr : String
  name : String
  absinfo : Fin 32 → Option (Int × Int)
  rumble : Option Int

/-! ## Device session -/

/-- The function `openJoystick` of `main.cpp`: the session starts from
`Joystick j = {0}`; an axis whose query fails keeps `min = max = 0`. -/
def openJoystick (dev : Device) : Except String Joystick :=
  if dev.file ≠ -1 then
    .ok
      { connected := true
        buttons := fun _ => false
        axes := fun i =>
          match dev.absinfo i with
          | some (lo, hi) => { min := lo, max := hi, value := F32.fin 0 }
          | none => { min := 0, max := 0, value := F32.fin 0 }
        name := dev.name
        file := dev.file
        hasRumble := dev.rumble.isSome
        rumbleEffectID := dev.rumble.getD 0 }
  else
    .error ("Failed to open joystick at " ++ dev.path ++ ": " ++ dev.errstr)

/-- The function `closeJoystick` of `main.cpp`.  The second component is the
log of the file descriptors passed to `close` so far. -/
def closeJoystick (joystick : Joystick) (closed : List Int) : Joystick × List Int :=
  if joystick.connected then
    ({ joystick with connected := false }, closed ++ [joystick.file])
  else
    (joystick, closed)

/-- The value computed on lines 102-103 of `main.cpp`:
`(value - min) / (float)(max - min) * 2 - 1`. -/
def normalized (value : Int) (axis : Axis) : F32 :=
  F32.sub
    (F32.mul (F32.div (F32.ofInt (value - axis.min)) (F32.ofInt (axis.max - axis.min)))
      (F32.ofInt 2))
    (F32.ofInt 1)

/-- The first `if` of `readJoystickInput` (lines 96-99): a key event in the
range `BTN_JOYSTICK .. BTN_THUMBR` sets one button. -/
def applyKey (joystick : Joystick) (event : input_event) : Joystick :=
  if h : event.type = EV_KEY ∧ BTN_JOYSTICK ≤ event.code ∧ event.code ≤ BTN_THUMBR then
    { joystick with
      buttons :=
        Function.update joystick.buttons
          ⟨event.code - 0x120, by
            have h2 := h.2.2
            simp only [BTN_THUMBR] at h2
            omega⟩
          (decide (event.value ≠ 0)) }
  else
    joystick

/-- The second `if` of `readJoystickInput` (lines 100-105): an absolute-axis
event with a code below `ABS_TOOL_WIDTH` stores the normalized value. -/
def applyAbs (joystick : Joystick) (event : input_event) : Joystick :=
  if h : event.type = EV_ABS ∧ event.code < ABS_TOOL_WIDTH then
    let i : Fin 32 := ⟨event.code, by
      have h2 := h.2
      simp only [ABS_TOOL_WIDTH] at h2
      omega⟩
    let axis := joystick.axes i
    { joystick with
      axes := Function.update joystick.axes i { axis with value := normalized event.value axis } }
  else
    joystick

/-- The function `readJoystickInput` of `main.cpp`.  The argument `r` is what
`read` delivered: `some event` when it returned a positive count, `none`
otherwise, in which case the function throws. -/
def readJoystickInput (joystick : Joystick) (r : Option input_event) : Except String Joystick :=
  match r with
  | some event => .ok (applyAbs (applyKey joystick event) event)
  | none => .error "Failed to read joystick input"

/-! ## Rate tracking -/

/-- The constant `eps` of `isSameSample`. -/
def eps : F32 := F32.fin (1 / 10000)

/-- The function `isSameSample` of `main.cpp`. -/
def isSameSample (now last : F32) : Bool :=
  F32.lt (F32.abs (F32.sub now last)) eps

/-- The expression `count / (elapsed / 1000.0f)` of lines 183-184 and 197-198. -/
def rateHz (count elapsed : Int) : F32 :=
  F32.div (F32.ofInt count) (F32.div (F32.ofInt elapsed) (F32.fin 1000))

/-- The milliseconds between two time points given in nanoseconds, as
`duration_cast<milliseconds>(later - earlier).count()` (rounding toward zero). -/
def elapsedMs (later earlier : Int) : Int :=
  Int.tdiv (later - earlier) 1000000

/-- One printed rate line.  The fields `samples`, `effective` and `elapsed` record
the counters and the elapsed milliseconds the two rates were computed from. -/
structure Report where
  samples : Int
  effective : Int
  elapsed : Int
  rate : F32
  effectiveRate : F32
  deriving DecidableEq

/-- The rate line for given counters and elapsed milliseconds. -/
def mkReport (samples effective elapsed : Int) : Report :=
  { samples := samples
    effective := effective
    elapsed := elapsed
    rate := rateHz samples elapsed
    effectiveRate := rateHz effective elapsed }

/-- The local variables of `main` during the polling loop, together with the
number of calls of `now()` made so far and the window reports printed so far. -/
structure LoopState where
  js : Joystick
  lastX : F32
  lastY : F32
  lastTime : Int
  startTime : Int
  sampleCount : Int
  totalSampleCount : Int
  effectiveSampleCount : Int
  totalEffectiveSampleCount : Int
  nowCalls : Nat
  reports : List Report

/-- Lines 160-164 of `main`: the loop state before the first iteration. -/
def initLoop (js : Joystick) (clock : Nat → Int) : LoopState :=
  { js := js
    lastX := F32.fin 0
    lastY := F32.fin 0
    lastTime := clock 0
    startTime := clock 0
    sampleCount := 0
    totalSampleCount := 0
    effectiveSampleCount := 0
    totalEffectiveSampleCount := 0
    nowCalls := 1
    reports := [] }

/-- Lines 167-168: the sample is counted. -/
def countSample (st : LoopState) : LoopState :=
  { st with
    sampleCount := st.sampleCount + 1
    totalSampleCount := st.totalSampleCount + 1 }

/-- The condition of the `if` on lines 170-171. -/
def isEffective (st : LoopState) : Bool :=
  !isSameSample (st.js.axes 0).value st.lastX && !isSameSample (st.js.axes 1).value st.lastY

/-- Lines 170-176: an effective sample is counted and becomes the baseline. -/
def trackEffective (st : LoopState) : LoopState :=
  if isEffective st then
    { st with
      effectiveSampleCount := st.effectiveSampleCount + 1
      totalEffectiveSampleCount := st.totalEffectiveSampleCount + 1
      lastX := (st.js.axes 0).value
      lastY := (st.js.axes 1).value }
  else
    st

/-- Lines 178-191: every `update_interval` samples a window report is printed
and the window counters and the window clock are reset. -/
def windowReport (clock : Nat → Int) (st : LoopState) : LoopState :=
  if Int.tmod st.sampleCount update_interval = 0 then
    let now := clock st.nowCalls
    let elapsed := elapsedMs now st.lastTime
    { st with
      reports := st.reports ++ [mkReport st.sampleCount st.effectiveSampleCount elapsed]
      lastTime := now
      sampleCount := 0
      effectiveSampleCount := 0
      nowCalls := st.nowCalls + 1 }
  else
    st

/-- The body of the polling loop after a successful read (lines 167-191). -/
def afterRead (clock : Nat → Int) (st : LoopState) (js : Joystick) : LoopState :=
  windowReport clock (trackEffective (countSample { st with js := js }))

/-- One iteration of the polling loop (lines 166-191) for the outcome `r` of its
`read`; the exception of `readJoystickInput` leaves the loop. -/
def pollStep (clock : Nat → Int) (st : LoopState) (r : Option input_event) :
    Except String LoopState :=
  match readJoystickInput st.js r with
  | .ok js => .ok (afterRead clock st js)
  | .error what => .error what

/-- How the polling loop ended: its condition became false, an exception left
it, or it waits for a `read` that the given input does not contain. -/
inductive LoopEnd where
  | finished
  | thrown (what : String)
  | starved
  deriving DecidableEq

/-- The polling loop of `main` (lines 165-192) on the outcomes of the
successive calls of `read`. -/
def pollLoop (maxSamples : Int) (clock : Nat → Int) :
    LoopState → List (Option input_event) → LoopEnd × LoopState
  | st, [] =>
    if st.totalSampleCount < maxSamples ∨ maxSamples = 0 then (.starved, st)
    else (.finished, st)
  | st, r :: rest =>
    if st.totalSampleCount < maxSamples ∨ maxSamples = 0 then
      match pollStep clock st r with
      | .ok st' => pollLoop maxSamples clock st' rest
      | .error what => (.thrown what, st)
    else (.finished, st)

/-- The state after the loop body has run on each of the events `evs`, all read
successfully. -/
def runSamples (clock : Nat → Int) (st : LoopState) (evs : List input_event) : LoopState :=
  evs.foldl (fun s ev => afterRead clock s (applyAbs (applyKey s.js ev) ev)) st

/-- How a warm-up read sequence or the whole driver stops. -/
inductive Exit where
  | returned (code : Int)
  | uncaught (what : String)
  | blocked
  deriving DecidableEq

/-- The warm-up loop of `main` (lines 156-158): `n` reads whose events are
applied to the session; the rest of the input is returned. -/
def warmup : Nat → Joystick → List (Option input_event) →
    Except Exit (Joystick × List (Option input_event))
  | 0, js, reads => .ok (js, reads)
  | _ + 1, _, [] => .error .blocked
  | n + 1, js, r :: rest =>
    match readJoystickInput js r with
    | .ok js' => warmup n js' rest
    | .error what => .error (.uncaught what)

/-- What a run of the driver did: how it stopped, the file descriptors passed
to `close`, the window reports, the final report, and the loop variables when
the polling loop was left. -/
structure Outcome where
  exit : Exit
  closed : List Int
  reports : List Report
  total : Option Report
  locals : Option LoopState

/-- Lines 153-204 of `main`: open the device, warm up with 100 reads, poll, print
the final report and close the session.  An exception of `openJoystick` or of
`readJoystickInput` is not caught anywhere and ends the run at once. -/
def main (dev : Device) (maxSamples : Int) (clock : Nat → Int)
    (reads : List (Option input_event)) : Outcome :=
  match openJoystick dev with
  | .error what =>
    { exit := .uncaught what, closed := [], reports := [], total := none, locals := none }
  | .ok js =>
    match warmup 100 js reads with
    | .error x => { exit := x, closed := [], reports := [], total := none, locals := none }
    | .ok (js1, rest) =>
      match pollLoop maxSamples clock (initLoop js1 clock) rest with
      | (.thrown what, st) =>
        { exit := .uncaught what, closed := [], reports := st.reports, total := none,
          locals := some st }
      | (.starved, st) =>
        { exit := .blocked, closed := [], reports := st.reports, total := none,
          locals := some st }
      | (.finished, st) =>
        let endTime := clock st.nowCalls
        let elapsed := elapsedMs endTime st.startTime
        let total := mkReport st.totalSampleCount st.totalEffectiveSampleCount elapsed
        let closing := closeJoystick st.js []
        { exit := .returned 0, closed := closing.2, reports := st.reports, total := some total,
          locals := some st }

/-! ## Example devices -/

/-- A device whose axes `X` and `Y` report the range `[-1000, 1000]`, whose other
axes report no bounds, and which has no rumble. -/
def padDevice : Device :=
  { path := "/dev/input/event0"
    file := 3
    errstr := ""
    name := "pad"
    absinfo := fun i => if i.val < 2 then some (-1000, 1000) else none
    rumble := none }

/-- The session `openJoystick` returns for `padDevice`. -/
def padSession : Joystick :=
  { connected := true
    buttons := fun _ => false
    axes := fun i =>
      if i.val < 2 then { min := -1000, max := 1000, value := F32.fin 0 }
      else { min := 0, max := 0, value := F32.fin 0 }
    name := "pad"
    file := 3
    hasRumble := false
    rumbleEffectID := 0 }

/-- A device none of whose axes reports bounds. -/
def bareDevice : Device :=
  { path := "/dev/input/event1"
    file := 4
    errstr := ""
    name := "bare"
    absinfo := fun _ => none
    rumble := none }

/-- The session `openJoystick` returns for `bareDevice`. -/
def bareSession : Joystick :=
  { connected := true
    buttons := fun _ => false
    axes := fun _ => { min := 0, max := 0, value := F32.fin 0 }
    name := "bare"
    file := 4
    hasRumble := false
    rumbleEffectID := 0 }

/-- The counter invariant of the polling loop after `n` counted samples: the
cumulative count is `n`, the window count is `n mod 100`, `n / 100` window
reports were printed, each for `100` samples of which between `0` and `100`
were effective, the cumulative effective count is the sum over the printed
windows plus the current window, the effective count of the current window
lies between `0` and its sample count, and the cumulative effective count is
at most the cumulative count. -/
def CountsOk (st : LoopState) (n : Nat) : Prop :=
  st.totalSampleCount = n ∧
  st.sampleCount = ((n % 100 : Nat) : Int) ∧
  st.reports.length = n / 100 ∧
  (∀ r ∈ st.reports, r.samples = 100 ∧ 0 ≤ r.effective ∧ r.effective ≤ r.samples) ∧
  st.totalEffectiveSampleCount =
    (st.reports.map Report.effective).sum + st.effectiveSampleCount ∧
  0 ≤ st.effectiveSampleCount ∧
  st.effectiveSampleCount ≤ st.sampleCount ∧
  st.totalEffectiveSampleCount ≤ st.totalSampleCount

/-- An event that changes no button and no axis: a synchronisation report
(`EV_SYN`, type `0`). -/
def syn : input_event := ⟨0, 0, 0⟩

/-- A clock that advances by five milliseconds from one call of `now()` to the next. -/
def stepClock (n : Nat) : Int := 5000000 * n

/-- Reads whose very first one, a warm-up read, fails. -/
def failAtWarmup : List (Option input_event) := [none]

/-- Reads of which the last warm-up read fails. -/
def failAtLastWarmup : List (Option input_event) :=
  List.replicate 99 (some syn) ++ [none]

/-- Reads of which the second read of the polling loop fails. -/
def failInLoop : List (Option input_event) :=
  List.replicate 100 (some syn) ++ [some syn, none]

/-- Reads that all succeed: the warm-up and one polled sample. -/
def cleanRun : List (Option input_event) :=
  List.replicate 101 (some syn)

theorem applyKey_of_type_ne (js : Joystick) (event : input_event)
    (h : event.type ≠ EV_KEY) : applyKey js event = js := by
  unfold applyKey
  rw [dif_neg]
  intro hc
  exact h hc.1

theorem applyAbs_of_type_ne (js : Joystick) (event : input_event)
    (h : event.type ≠ EV_ABS) : applyAbs js event = js := by
  unfold applyAbs
  rw [dif_neg]
  intro hc
  exact h hc.1

theorem applyAbs_of_abs (js : Joystick) (i : Fin 32) (raw : Int)
    (hi : i.val < ABS_TOOL_WIDTH) :
    applyAbs js ⟨EV_ABS, i.val, raw⟩ =
      { js with
        axes := Function.update js.axes i { js.axes i with value := normalized raw (js.axes i) } } := by
  unfold applyAbs
  rw [dif_pos ⟨rfl, hi⟩]

theorem applyKey_of_button (js : Joystick) (k : Fin 32) (v : Int) (hk : k.val ≤ 30) :
    applyKey js ⟨EV_KEY, BTN_JOYSTICK + k.val, v⟩ =
      { js with buttons := Function.update js.buttons k (decide (v ≠ 0)) } := by
  unfold applyKey
  have hc : EV_KEY = EV_KEY ∧ BTN_JOYSTICK ≤ BTN_JOYSTICK + k.val ∧
      BTN_JOYSTICK + k.val ≤ BTN_THUMBR := by
    refine ⟨rfl, Nat.le_add_right _ _, ?_⟩
    simp only [BTN_JOYSTICK, BTN_THUMBR]
    omega
  rw [dif_pos hc]
  have hidx : ∀ p : BTN_JOYSTICK + k.val - 0x120 < 32,
      (⟨BTN_JOYSTICK + k.val - 0x120, p⟩ : Fin 32) = k := by
    intro p
    apply Fin.ext
    simp [BTN_JOYSTICK]
  simp only [hidx]

theorem EV_ABS_ne_EV_KEY : EV_ABS ≠ EV_KEY := by decide

theorem normalized_of_lt (raw : Int) (axis : Axis) (h : axis.min ≠ axis.max) :
    normalized raw axis =
      F32.fin (((raw : ℚ) - axis.min) / ((axis.max : ℚ) - axis.min) * 2 - 1) := by
  have hne : ((axis.max - axis.min : Int) : ℚ) ≠ 0 := by
    intro h0
    have h1 : axis.max - axis.min = 0 := by exact_mod_cast h0
    omega
  unfold normalized
  simp only [F32.ofInt, F32.div, if_neg hne, F32.mul, F32.sub]
  push_cast
  rfl

theorem normalized_of_zero (raw : Int) (axis : Axis) (hmin : axis.min = 0) (hmax : axis.max = 0) :
    normalized raw axis = F32.signed raw := by
  unfold normalized
  simp only [hmin, hmax, F32.ofInt, F32.div, sub_zero, Int.cast_zero, if_true]
  unfold F32.signed
  by_cases hp : (0 : ℚ) < raw
  · norm_num [hp, F32.mul, F32.sub, F32.signed]
  · by_cases hn : (raw : ℚ) < 0
    · norm_num [hp, hn, F32.mul, F32.sub, F32.signed]
    · norm_num [hp, hn, F32.mul, F32.sub]

theorem openJoystick_padDevice : openJoystick padDevice = .ok padSession := by
  unfold openJoystick padDevice padSession
  simp only [ne_eq, Option.isSome_none, Option.getD_none]
  rw [if_pos (by decide)]
  congr 2
  funext i
  by_cases h : i.val < 2 <;> simp [h]

theorem openJoystick_bareDevice : openJoystick bareDevice = .ok bareSession := by
  unfold openJoystick bareDevice bareSession
  simp only [ne_eq, Option.isSome_none, Option.getD_none]
  rw [if_pos (by decide)]

theorem applyKey_of_code_out (js : Joystick) (event : input_event)
    (h : ¬ (BTN_JOYSTICK ≤ event.code ∧ event.code ≤ BTN_THUMBR)) : applyKey js event = js := by
  unfold applyKey
  rw [dif_neg]
  intro hc
  exact h hc.2

theorem EV_KEY_ne_EV_ABS : EV_KEY ≠ EV_ABS := by decide

theorem readJoystickInput_abs (js : Joystick) (i : Fin 32) (raw : Int)
    (hi : i.val < ABS_TOOL_WIDTH) :
    readJoystickInput js (some ⟨EV_ABS, i.val, raw⟩) =
      .ok { js with
            axes := Function.update js.axes i
              { js.axes i with value := normalized raw (js.axes i) } } := by
  show Except.ok (applyAbs (applyKey js ⟨EV_ABS, i.val, raw⟩) ⟨EV_ABS, i.val, raw⟩) = _
  rw [applyKey_of_type_ne js ⟨EV_ABS, i.val, raw⟩ EV_ABS_ne_EV_KEY, applyAbs_of_abs js i raw hi]

theorem readJoystickInput_key (js : Joystick) (k : Fin 32) (v : Int) (hk : k.val ≤ 30) :
    readJoystickInput js (some ⟨EV_KEY, BTN_JOYSTICK + k.val, v⟩) =
      .ok { js with buttons := Function.update js.buttons k (decide (v ≠ 0)) } := by
  show Except.ok (applyAbs (applyKey js ⟨EV_KEY, BTN_JOYSTICK + k.val, v⟩)
    ⟨EV_KEY, BTN_JOYSTICK + k.val, v⟩) = _
  rw [applyAbs_of_type_ne _ ⟨EV_KEY, BTN_JOYSTICK + k.val, v⟩ EV_KEY_ne_EV_ABS,
    applyKey_of_button js k v hk]

theorem readJoystickInput_key_out (js : Joystick) (code : Nat) (v : Int)
    (h : ¬ (BTN_JOYSTICK ≤ code ∧ code ≤ BTN_THUMBR)) :
    readJoystickInput js (some ⟨EV_KEY, code, v⟩) = .ok js := by
  show Except.ok (applyAbs (applyKey js ⟨EV_KEY, code, v⟩) ⟨EV_KEY, code, v⟩) = _
  rw [applyAbs_of_type_ne _ ⟨EV_KEY, code, v⟩ EV_KEY_ne_EV_ABS,
    applyKey_of_code_out js ⟨EV_KEY, code, v⟩ h]

/-! ## The claims on the event decoder -/

/-- C1: for an absolute-axis event on an axis code below `ABS_TOOL_WIDTH` whose
calibration has `min < max`, and a raw value with `min <= raw <= max`,
`readJoystickInput` succeeds and stores the finite value
`(raw - min) / (max - min) * 2 - 1` (exact arithmetic); this value lies in
`[-1, 1]`, is `-1` when `raw = min` and `1` when `raw = max`. -/
theorem readJoystickInput_normalized_bounds (js : Joystick) (i : Fin 32) (raw : Int)
    (hi : i.val < ABS_TOOL_WIDTH)
    (hlt : (js.axes i).min < (js.axes i).max)
    (hlo : (js.axes i).min ≤ raw) (hhi : raw ≤ (js.axes i).max) :
    ∃ js' q, readJoystickInput js (some ⟨EV_ABS, i.val, raw⟩) = .ok js' ∧
      (js'.axes i).value = F32.fin q ∧
      q = ((raw : ℚ) - (js.axes i).min) / (((js.axes i).max : ℚ) - (js.axes i).min) * 2 - 1 ∧
      -1 ≤ q ∧ q ≤ 1 ∧
      (raw = (js.axes i).min → q = -1) ∧ (raw = (js.axes i).max → q = 1) := by
  have hd : (0 : ℚ) < ((js.axes i).max : ℚ) - (js.axes i).min := by
    have : ((js.axes i).min : ℚ) < (js.axes i).max := by exact_mod_cast hlt
    linarith
  have hn0 : (0 : ℚ) ≤ (raw : ℚ) - (js.axes i).min := by
    have : ((js.axes i).min : ℚ) ≤ raw := by exact_mod_cast hlo
    linarith
  have hn1 : (raw : ℚ) - (js.axes i).min ≤ ((js.axes i).max : ℚ) - (js.axes i).min := by
    have : (raw : ℚ) ≤ (js.axes i).max := by exact_mod_cast hhi
    linarith
  have hq0 : (0 : ℚ) ≤ ((raw : ℚ) - (js.axes i).min) / (((js.axes i).max : ℚ) - (js.axes i).min) :=
    div_nonneg hn0 hd.le
  have hq1 : ((raw : ℚ) - (js.axes i).min) / (((js.axes i).max : ℚ) - (js.axes i).min) ≤ 1 :=
    (div_le_one hd).mpr hn1
  refine ⟨_, _, readJoystickInput_abs js i raw hi, ?_, rfl, by linarith, by linarith, ?_, ?_⟩
  · simp only [Function.update_same]
    exact normalized_of_lt raw (js.axes i) (by omega)
  · intro h
    rw [h, sub_self, zero_div]
    norm_num
  · intro h
    rw [h, div_self hd.ne']
    norm_num

/-- Witness of C1 on the session of `padDevice`: the raw value `500` of axis `X`. -/
theorem readJoystickInput_normalized_bounds_witness :
    (padSession.axes 0).min < (padSession.axes 0).max ∧
    (padSession.axes 0).min ≤ 500 ∧ 500 ≤ (padSession.axes 0).max ∧
    ∃ js' q, readJoystickInput padSession (some ⟨EV_ABS, 0, 500⟩) = .ok js' ∧
      (js'.axes 0).value = F32.fin q ∧ -1 ≤ q ∧ q ≤ 1 := by
  refine ⟨by decide, by decide, by decide, ?_⟩
  obtain ⟨js', q, h1, h2, _, h4, h5, _⟩ :=
    readJoystickInput_normalized_bounds padSession 0 500 (by decide) (by decide) (by decide)
      (by decide)
  exact ⟨js', q, h1, h2, h4, h5⟩

/-- Counterexample to C2: on the session of `bareDevice`, whose axis `X` has
`min = max = 0`, the absolute-axis event with raw value `5` is not ignored: the
division by zero is carried out and `+Inf` replaces the stored value `0`. -/
theorem uncalibrated_axis_not_ignored :
    (0 : Fin 32).val < ABS_TOOL_WIDTH ∧
    (bareSession.axes 0).min = 0 ∧ (bareSession.axes 0).max = 0 ∧
    ∃ js', readJoystickInput bareSession (some ⟨EV_ABS, 0, 5⟩) = .ok js' ∧
      (js'.axes 0).value = F32.pinf ∧ (bareSession.axes 0).value = F32.fin 0 ∧
      (js'.axes 0).value ≠ (bareSession.axes 0).value := by
  have h := readJoystickInput_abs bareSession 0 5 (by decide)
  have hv : normalized 5 (bareSession.axes 0) = F32.pinf := by
    rw [normalized_of_zero 5 _ rfl rfl]
    norm_num [F32.signed]
  rw [hv] at h
  refine ⟨by decide, rfl, rfl, _, h, ?_, rfl, ?_⟩
  · simp only [Function.update_same]
  · simp only [Function.update_same]
    simp [bareSession]

/-- C2 (amended): for an axis code below `ABS_TOOL_WIDTH` whose calibration is
`min = max = 0` and every raw value, an absolute-axis event is not ignored:
`readJoystickInput` succeeds, leaves every other field of the session (the
buttons, the other axes, the calibration of this axis) unchanged, and
overwrites the value of this axis with the result of the division by zero,
which is not finite: `+Inf` for `raw > 0`, `-Inf` for `raw < 0`, `NaN` for
`raw = 0`. -/
theorem readJoystickInput_uncalibrated (js : Joystick) (i : Fin 32) (raw : Int)
    (hi : i.val < ABS_TOOL_WIDTH)
    (hmin : (js.axes i).min = 0) (hmax : (js.axes i).max = 0) :
    readJoystickInput js (some ⟨EV_ABS, i.val, raw⟩) =
      .ok { js with
            axes := Function.update js.axes i
              { min := 0, max := 0,
                value := if 0 < raw then F32.pinf else if raw < 0 then F32.ninf else F32.nan } } ∧
    F32.isFinite (if 0 < raw then F32.pinf else if raw < 0 then F32.ninf else F32.nan) = false := by
  constructor
  · rw [readJoystickInput_abs js i raw hi, normalized_of_zero raw _ hmin hmax]
    simp only [hmin, hmax, F32.signed, Int.cast_pos, Int.cast_lt_zero]
  · split_ifs <;> rfl

/-- Witness of C2 (amended) on the session of `bareDevice`: axis `X`, raw value `5`. -/
theorem readJoystickInput_uncalibrated_witness :
    (bareSession.axes 0).min = 0 ∧ (bareSession.axes 0).max = 0 ∧
    readJoystickInput bareSession (some ⟨EV_ABS, 0, 5⟩) =
      .ok { bareSession with
            axes := Function.update bareSession.axes 0
              { min := 0, max := 0, value := F32.pinf } } := by
  refine ⟨rfl, rfl, ?_⟩
  have h := (readJoystickInput_uncalibrated bareSession 0 5 (by decide) rfl rfl).1
  simpa using h

/-- Counterexample to C6: the key code `BTN_JOYSTICK + 31` lies in the 32 codes
that start at `BTN_JOYSTICK`, yet a key event with this code and value `1`
leaves `buttons[31]` of the session of `padDevice` at `false` (the session is
unchanged), where the claim asks for `true`. -/
theorem last_button_code_ignored :
    BTN_JOYSTICK ≤ BTN_JOYSTICK + 31 ∧ BTN_JOYSTICK + 31 < BTN_JOYSTICK + 32 ∧
    decide ((1 : Int) ≠ 0) = true ∧
    ∃ js', readJoystickInput padSession (some ⟨EV_KEY, BTN_JOYSTICK + 31, 1⟩) = .ok js' ∧
      js'.buttons 31 = false := by
  refine ⟨by decide, by decide, by decide, padSession, ?_, rfl⟩
  exact readJoystickInput_key_out padSession (BTN_JOYSTICK + 31) 1 (by decide)

/-- C6 (amended): for every key event whose code lies in the 31 contiguous codes
`BTN_JOYSTICK .. BTN_THUMBR` (`BTN_JOYSTICK + k` with `k <= 30`) and every
event value `v`, `readJoystickInput` sets `buttons[k]` to `v != 0` and changes
no other button and no axis; a key event with the code `BTN_JOYSTICK + 31`
leaves the session unchanged. -/
theorem readJoystickInput_button_range (js : Joystick) (k : Fin 32) (v : Int)
    (hk : k.val ≤ 30) :
    BTN_THUMBR = BTN_JOYSTICK + 30 ∧
    (∃ js', readJoystickInput js (some ⟨EV_KEY, BTN_JOYSTICK + k.val, v⟩) = .ok js' ∧
      js'.buttons k = decide (v ≠ 0) ∧
      (∀ j, j ≠ k → js'.buttons j = js.buttons j) ∧
      js'.axes = js.axes) ∧
    readJoystickInput js (some ⟨EV_KEY, BTN_JOYSTICK + 31, v⟩) = .ok js := by
  refine ⟨by decide, ⟨_, readJoystickInput_key js k v hk, ?_, ?_, rfl⟩, ?_⟩
  · simp only [Function.update_same]
  · intro j hj
    simp only [Function.update_noteq hj]
  · exact readJoystickInput_key_out js (BTN_JOYSTICK + 31) v (by decide)

/-- Witness of C6 (amended) on the session of `padDevice`: the code
`BTN_JOYSTICK + 30 = BTN_THUMBR` with value `1` presses button `30`. -/
theorem readJoystickInput_button_range_witness :
    (30 : Fin 32).val ≤ 30 ∧
    ∃ js', readJoystickInput padSession (some ⟨EV_KEY, BTN_JOYSTICK + 30, 1⟩) = .ok js' ∧
      js'.buttons 30 = true := by
  refine ⟨by decide, ?_⟩
  obtain ⟨js', h1, h2, _⟩ := (readJoystickInput_button_range padSession 30 1 (by decide)).2.1
  exact ⟨js', h1, by simpa using h2⟩

/-- C7: for every event value `v`, a key event with the code `BTN_JOYSTICK` sets
`buttons[0]` to `v != 0` and changes no other button and no axis, and a key
event with the code one below `BTN_JOYSTICK` leaves the session unchanged. -/
theorem readJoystickInput_button_boundary (js : Joystick) (v : Int) :
    (∃ js', readJoystickInput js (some ⟨EV_KEY, BTN_JOYSTICK, v⟩) = .ok js' ∧
      js'.buttons 0 = decide (v ≠ 0) ∧
      (∀ j, j ≠ 0 → js'.buttons j = js.buttons j) ∧
      js'.axes = js.axes) ∧
    readJoystickInput js (some ⟨EV_KEY, BTN_JOYSTICK - 1, v⟩) = .ok js := by
  refine ⟨⟨_, readJoystickInput_key js 0 v (by decide), ?_, ?_, rfl⟩, ?_⟩
  · simp only [Function.update_same]
  · intro j hj
    simp only [Function.update_noteq hj]
  · exact readJoystickInput_key_out js (BTN_JOYSTICK - 1) v (by decide)

/-! ## Closing the session -/

/-- C10: `closeJoystick` on a connected session passes the file descriptor to
`close` once and sets `connected = false`, leaving every other field unchanged;
on a session with `connected = false` it releases nothing and leaves the
session unchanged; so closing twice equals closing once, and two calls release
the handle at most once. -/
theorem closeJoystick_idempotent (js : Joystick) (closed : List Int) :
    (js.connected = true →
      closeJoystick js closed = ({ js with connected := false }, closed ++ [js.file])) ∧
    (js.connected = false → closeJoystick js closed = (js, closed)) ∧
    (closeJoystick js closed).1.connected = false ∧
    closeJoystick (closeJoystick js closed).1 (closeJoystick js closed).2 =
      closeJoystick js closed ∧
    (closeJoystick (closeJoystick js []).1 (closeJoystick js []).2).2.length ≤ 1 := by
  unfold closeJoystick
  cases hc : js.connected <;> simp [hc]

/-- Witness of C10 on the session of `padDevice`, whose file descriptor is `3`. -/
theorem closeJoystick_idempotent_witness :
    padSession.connected = true ∧
    closeJoystick padSession [] = ({ padSession with connected := false }, [3]) ∧
    closeJoystick (closeJoystick padSession []).1 (closeJoystick padSession []).2 =
      closeJoystick padSession [] := by
  have h := closeJoystick_idempotent padSession []
  exact ⟨rfl, h.1 rfl, h.2.2.2.1⟩

/-! ## Rates -/

theorem rateHz_of_pos (s e : Int) (he : 0 < e) :
    rateHz s e = F32.fin (1000 * s / e) := by
  have he' : (e : ℚ) ≠ 0 := by
    have : (0 : ℚ) < e := by exact_mod_cast he
    exact this.ne'
  have h1 : ((e : ℚ) / 1000) ≠ 0 := div_ne_zero he' (by norm_num)
  have h2 : F32.div (F32.fin (e : ℚ)) (F32.fin 1000) = F32.fin ((e : ℚ) / 1000) := by
    simp [F32.div]
  have h3 : F32.div (F32.fin (s : ℚ)) (F32.fin ((e : ℚ) / 1000)) =
      F32.fin ((s : ℚ) / ((e : ℚ) / 1000)) := by
    simp only [F32.div, if_neg h1]
  show F32.div (F32.fin (s : ℚ)) (F32.div (F32.fin (e : ℚ)) (F32.fin 1000)) = _
  rw [h2, h3]
  congr 1
  field_simp
  ring

theorem warmup_error (n : Nat) (js : Joystick) (reads : List (Option input_event)) (x : Exit)
    (h : warmup n js reads = .error x) : x = .blocked ∨ ∃ what, x = .uncaught what := by
  induction n generalizing js reads with
  | zero => simp [warmup] at h
  | succ n ih =>
    cases reads with
    | nil =>
      simp only [warmup, Except.error.injEq] at h
      exact Or.inl h.symm
    | cons r rest =>
      simp only [warmup] at h
      cases hr : readJoystickInput js r with
      | ok js' =>
        rw [hr] at h
        exact ih js' rest h
      | error what =>
        rw [hr] at h
        simp only [Except.error.injEq] at h
        exact Or.inr ⟨what, h.symm⟩

/-- C9: for every sample count `s`, effective count `f` and elapsed time of
`e > 0` whole milliseconds, the rate line computed from them has the rate
`s / (e / 1000) = 1000 * s / e` and the effective rate `1000 * f / e` (exact
arithmetic); a window report is this line for the window counters and the
milliseconds since the window started, the final report is this line for the
cumulative counters and the milliseconds since the start; for `s = 100` and
`e = 500` the rate is `200`. -/
theorem report_rates (s f e : Int) (he : 0 < e) :
    (mkReport s f e).rate = F32.fin ((s : ℚ) / ((e : ℚ) / 1000)) ∧
    (mkReport s f e).rate = F32.fin (1000 * s / e) ∧
    (mkReport s f e).effectiveRate = F32.fin (1000 * f / e) ∧
    (∀ (clock : Nat → Int) (st : LoopState), Int.tmod st.sampleCount update_interval = 0 →
      (windowReport clock st).reports =
        st.reports ++ [mkReport st.sampleCount st.effectiveSampleCount
          (elapsedMs (clock st.nowCalls) st.lastTime)]) ∧
    (∀ (dev : Device) (maxSamples : Int) (clock : Nat → Int) (reads : List (Option input_event)),
      (main dev maxSamples clock reads).exit = .returned 0 →
      ∃ st, (main dev maxSamples clock reads).locals = some st ∧
        (main dev maxSamples clock reads).total =
          some (mkReport st.totalSampleCount st.totalEffectiveSampleCount
            (elapsedMs (clock st.nowCalls) st.startTime))) ∧
    (mkReport 100 f 500).rate = F32.fin 200 := by
  refine ⟨?_, ?_, ?_, ?_, ?_, ?_⟩
  · show rateHz s e = _
    rw [rateHz_of_pos s e he]
    congr 1
    have he' : (e : ℚ) ≠ 0 := by
      have : (0 : ℚ) < e := by exact_mod_cast he
      exact this.ne'
    field_simp
    ring
  · exact rateHz_of_pos s e he
  · exact rateHz_of_pos f e he
  · intro clock st h
    unfold windowReport
    rw [if_pos h]
  · intro dev maxSamples clock reads h
    unfold main at h ⊢
    cases ho : openJoystick dev with
    | error what => simp [ho] at h
    | ok js =>
      simp only [ho] at h ⊢
      cases hw : warmup 100 js reads with
      | error x =>
        simp only [hw] at h
        rcases warmup_error 100 js reads x hw with hx | ⟨what, hx⟩ <;> simp [hx] at h
      | ok p =>
        obtain ⟨js1, rest⟩ := p
        simp only [hw] at h ⊢
        cases hp : pollLoop maxSamples clock (initLoop js1 clock) rest with
        | mk e st =>
          cases e with
          | finished => exact ⟨st, rfl, rfl⟩
          | thrown what => simp [hp] at h
          | starved => simp [hp] at h
  · show rateHz 100 500 = _
    rw [rateHz_of_pos 100 500 (by norm_num)]
    norm_num

/-- Witness of C9: a window of `100` samples, `40` of them effective, that took
`500` milliseconds is reported with `200` Hz and `80` Hz. -/
theorem report_rates_witness :
    (0 : Int) < 500 ∧
    (mkReport 100 40 500).rate = F32.fin 200 ∧
    (mkReport 100 40 500).effectiveRate = F32.fin 80 := by
  have h := report_rates 100 40 500 (by norm_num)
  refine ⟨by norm_num, ?_, ?_⟩
  · rw [h.2.1]
    norm_num
  · rw [h.2.2.1]
    norm_num

/-! ## Lemmas on the polling loop -/

theorem windowReport_baseline (clock : Nat → Int) (st : LoopState) :
    (windowReport clock st).js = st.js ∧
    (windowReport clock st).lastX = st.lastX ∧
    (windowReport clock st).lastY = st.lastY ∧
    (windowReport clock st).totalSampleCount = st.totalSampleCount ∧
    (windowReport clock st).totalEffectiveSampleCount = st.totalEffectiveSampleCount := by
  unfold windowReport
  split_ifs <;> simp

theorem afterRead_countsOk (clock : Nat → Int) (st : LoopState) (js : Joystick) (n : Nat)
    (h : CountsOk st n) : CountsOk (afterRead clock st js) (n + 1) := by
  obtain ⟨h1, h2, h3, h4, h5, h6, h7, h8⟩ := h
  unfold afterRead windowReport
  have hsc : (trackEffective (countSample { st with js := js })).sampleCount = st.sampleCount + 1 := by
    unfold trackEffective countSample
    split_ifs <;> rfl
  have htot : (trackEffective (countSample { st with js := js })).totalSampleCount =
      st.totalSampleCount + 1 := by
    unfold trackEffective countSample
    split_ifs <;> rfl
  have hrep : (trackEffective (countSample { st with js := js })).reports = st.reports := by
    unfold trackEffective countSample
    split_ifs <;> rfl
  have heff : ((trackEffective (countSample { st with js := js })).effectiveSampleCount =
        st.effectiveSampleCount ∧
      (trackEffective (countSample { st with js := js })).totalEffectiveSampleCount =
        st.totalEffectiveSampleCount) ∨
      ((trackEffective (countSample { st with js := js })).effectiveSampleCount =
        st.effectiveSampleCount + 1 ∧
      (trackEffective (countSample { st with js := js })).totalEffectiveSampleCount =
        st.totalEffectiveSampleCount + 1) := by
    unfold trackEffective countSample
    split_ifs
    · exact Or.inr ⟨rfl, rfl⟩
    · exact Or.inl ⟨rfl, rfl⟩
  generalize trackEffective (countSample { st with js := js }) = t at hsc htot hrep heff
  have hmod : Int.tmod t.sampleCount update_interval = t.sampleCount % 100 := by
    rw [Int.tmod_eq_emod (by omega) (by decide)]
    rfl
  rw [hmod]
  split_ifs with hw
  · refine ⟨?_, ?_, ?_, ?_, ?_, ?_, ?_, ?_⟩
    · show t.totalSampleCount = _
      rw [htot, h1]
      push_cast
      rfl
    · show (0 : Int) = _
      omega
    · show (t.reports ++ [_]).length = _
      rw [List.length_append, hrep, h3]
      simp only [List.length_singleton]
      omega
    · intro r hr
      rw [List.mem_append, hrep, List.mem_singleton] at hr
      rcases hr with hr | hr
      · exact h4 r hr
      · subst hr
        refine ⟨?_, ?_, ?_⟩
        · show t.sampleCount = 100
          omega
        · show 0 ≤ t.effectiveSampleCount
          omega
        · show t.effectiveSampleCount ≤ t.sampleCount
          omega
    · show t.totalEffectiveSampleCount = ((t.reports ++ [_]).map Report.effective).sum + 0
      rw [List.map_append, List.sum_append, hrep]
      simp only [List.map_cons, List.map_nil, List.sum_cons, List.sum_nil, mkReport]
      omega
    · show (0 : Int) ≤ 0
      omega
    · show (0 : Int) ≤ 0
      omega
    · show t.totalEffectiveSampleCount ≤ t.totalSampleCount
      omega
  · refine ⟨?_, ?_, ?_, ?_, ?_, ?_, ?_, ?_⟩
    · rw [htot, h1]
      push_cast
      rfl
    · omega
    · rw [hrep, h3]
      omega
    · rw [hrep]
      exact h4
    · rw [hrep]
      omega
    · omega
    · omega
    · omega

theorem initLoop_countsOk (js : Joystick) (clock : Nat → Int) : CountsOk (initLoop js clock) 0 := by
  unfold CountsOk initLoop
  simp

theorem runSamples_countsOk (clock : Nat → Int) (evs : List input_event) (st : LoopState) (n : Nat)
    (h : CountsOk st n) : CountsOk (runSamples clock st evs) (n + evs.length) := by
  induction evs generalizing st n with
  | nil => exact h
  | cons ev rest ih =>
    have h1 := afterRead_countsOk clock st (applyAbs (applyKey st.js ev) ev) n h
    have h2 := ih _ (n + 1) h1
    have hl : n + (ev :: rest).length = n + 1 + rest.length := by
      simp only [List.length_cons]
      omega
    rw [hl]
    exact h2

theorem pollLoop_runSamples (maxSamples : Int) (clock : Nat → Int)
    (reads : List (Option input_event)) (st : LoopState) :
    ∃ evs : List input_event, evs.map some <+: reads ∧
      (pollLoop maxSamples clock st reads).2 = runSamples clock st evs := by
  induction reads generalizing st with
  | nil =>
    refine ⟨[], List.prefix_refl _, ?_⟩
    unfold pollLoop
    split_ifs <;> rfl
  | cons r rest ih =>
    unfold pollLoop
    split_ifs with hc
    · cases r with
      | none => exact ⟨[], List.nil_prefix, rfl⟩
      | some ev =>
        obtain ⟨evs, hp, he⟩ := ih (afterRead clock st (applyAbs (applyKey st.js ev) ev))
        refine ⟨ev :: evs, ?_, ?_⟩
        · rw [List.map_cons]
          exact (List.prefix_cons_inj _).mpr hp
        · exact he
    · exact ⟨[], List.nil_prefix, rfl⟩

theorem applyKey_session (js : Joystick) (event : input_event) :
    (applyKey js event).connected = js.connected ∧ (applyKey js event).file = js.file := by
  unfold applyKey
  split_ifs <;> exact ⟨rfl, rfl⟩

theorem applyAbs_session (js : Joystick) (event : input_event) :
    (applyAbs js event).connected = js.connected ∧ (applyAbs js event).file = js.file := by
  unfold applyAbs
  split_ifs <;> exact ⟨rfl, rfl⟩

theorem readJoystickInput_session (js js' : Joystick) (r : Option input_event)
    (h : readJoystickInput js r = .ok js') :
    js'.connected = js.connected ∧ js'.file = js.file := by
  cases r with
  | none => simp [readJoystickInput] at h
  | some event =>
    simp only [readJoystickInput, Except.ok.injEq] at h
    subst h
    have h1 := applyAbs_session (applyKey js event) event
    have h2 := applyKey_session js event
    exact ⟨h1.1.trans h2.1, h1.2.trans h2.2⟩

theorem warmup_session (n : Nat) (js js' : Joystick) (reads rest : List (Option input_event))
    (h : warmup n js reads = .ok (js', rest)) :
    js'.connected = js.connected ∧ js'.file = js.file := by
  induction n generalizing js reads with
  | zero =>
    simp only [warmup, Except.ok.injEq, Prod.mk.injEq] at h
    rw [h.1]
    exact ⟨rfl, rfl⟩
  | succ n ih =>
    cases reads with
    | nil => simp [warmup] at h
    | cons r tl =>
      simp only [warmup] at h
      cases hr : readJoystickInput js r with
      | ok js1 =>
        rw [hr] at h
        have h1 := ih js1 tl h
        have h2 := readJoystickInput_session js js1 r hr
        exact ⟨h1.1.trans h2.1, h1.2.trans h2.2⟩
      | error what =>
        rw [hr] at h
        simp at h

theorem afterRead_js (clock : Nat → Int) (st : LoopState) (js : Joystick) :
    (afterRead clock st js).js = js := by
  unfold afterRead
  rw [(windowReport_baseline clock _).1]
  unfold trackEffective
  split_ifs <;> rfl

theorem pollLoop_session (maxSamples : Int) (clock : Nat → Int)
    (reads : List (Option input_event)) (st : LoopState) :
    (pollLoop maxSamples clock st reads).2.js.connected = st.js.connected ∧
    (pollLoop maxSamples clock st reads).2.js.file = st.js.file := by
  induction reads generalizing st with
  | nil =>
    unfold pollLoop
    split_ifs <;> exact ⟨rfl, rfl⟩
  | cons r rest ih =>
    unfold pollLoop
    split_ifs with hc
    · unfold pollStep
      cases hr : readJoystickInput st.js r with
      | error what => exact ⟨rfl, rfl⟩
      | ok js1 =>
        have h1 := ih (afterRead clock st js1)
        have h2 := readJoystickInput_session st.js js1 r hr
        rw [afterRead_js] at h1
        exact ⟨h1.1.trans h2.1, h1.2.trans h2.2⟩
    · exact ⟨rfl, rfl⟩

theorem main_returned_closes_once (dev : Device) (maxSamples : Int) (clock : Nat → Int)
    (reads : List (Option input_event)) (code : Int)
    (h : (main dev maxSamples clock reads).exit = .returned code) :
    (main dev maxSamples clock reads).closed = [dev.file] := by
  unfold main at h ⊢
  cases ho : openJoystick dev with
  | error w => simp [ho] at h
  | ok js =>
    have hjs : js.connected = true ∧ js.file = dev.file := by
      unfold openJoystick at ho
      split_ifs at ho
      simp only [Except.ok.injEq] at ho
      subst ho
      exact ⟨rfl, rfl⟩
    simp only [ho] at h ⊢
    cases hw : warmup 100 js reads with
    | error x =>
      simp only [hw] at h
      rcases warmup_error 100 js reads x hw with hx | ⟨what, hx⟩ <;> simp [hx] at h
    | ok p =>
      obtain ⟨js1, rest⟩ := p
      have hjs1 := warmup_session 100 js js1 reads rest hw
      simp only [hw] at h ⊢
      have hp2 := pollLoop_session maxSamples clock rest (initLoop js1 clock)
      cases hp : pollLoop maxSamples clock (initLoop js1 clock) rest with
      | mk e st =>
        rw [hp] at hp2
        cases e with
        | thrown w => simp [hp] at h
        | starved => simp [hp] at h
        | finished =>
          have hc : st.js.connected = true := by
            rw [hp2.1]
            exact hjs1.1.trans hjs.1
          have hf : st.js.file = dev.file := by
            rw [hp2.2]
            exact hjs1.2.trans hjs.2
          show (closeJoystick st.js []).2 = [dev.file]
          unfold closeJoystick
          rw [if_pos hc, hf]
          rfl

/-! ## The claims on the polling loop -/

/-- C8: after the polling loop has counted the `n` successfully read samples
`evs`, the cumulative count is `n`, the window count is `n mod 100`, exactly
`n / 100` window reports were printed, each for exactly `100` samples with an
effective count between `0` and `100`, the cumulative effective count is the
sum of the effective counts of the printed windows plus that of the current
window, and effective counts never exceed sample counts, in the window and
cumulatively.  Every state in which the polling loop stops is such a state,
for the samples it has read. -/
theorem polling_counters (clock : Nat → Int) (js : Joystick) (evs : List input_event) :
    ((runSamples clock (initLoop js clock) evs).totalSampleCount = evs.length ∧
    (runSamples clock (initLoop js clock) evs).sampleCount = ((evs.length % 100 : Nat) : Int) ∧
    (runSamples clock (initLoop js clock) evs).reports.length = evs.length / 100 ∧
    (∀ r ∈ (runSamples clock (initLoop js clock) evs).reports,
      r.samples = 100 ∧ 0 ≤ r.effective ∧ r.effective ≤ r.samples) ∧
    (runSamples clock (initLoop js clock) evs).totalEffectiveSampleCount =
      ((runSamples clock (initLoop js clock) evs).reports.map Report.effective).sum +
        (runSamples clock (initLoop js clock) evs).effectiveSampleCount ∧
    0 ≤ (runSamples clock (initLoop js clock) evs).effectiveSampleCount ∧
    (runSamples clock (initLoop js clock) evs).effectiveSampleCount ≤
      (runSamples clock (initLoop js clock) evs).sampleCount ∧
    (runSamples clock (initLoop js clock) evs).totalEffectiveSampleCount ≤
      (runSamples clock (initLoop js clock) evs).totalSampleCount) ∧
    (∀ (maxSamples : Int) (reads : List (Option input_event)),
      ∃ read : List input_event, read.map some <+: reads ∧
        (pollLoop maxSamples clock (initLoop js clock) reads).2 =
          runSamples clock (initLoop js clock) read) := by
  constructor
  · have h := runSamples_countsOk clock evs (initLoop js clock) 0 (initLoop_countsOk js clock)
    rw [Nat.zero_add] at h
    exact h
  · intro maxSamples reads
    exact pollLoop_runSamples maxSamples clock reads (initLoop js clock)

/-- C3 (behaviour of the code): whenever a run of the driver ends by the
exception of a failed read, at whichever warm-up or polling read it fails, no
file descriptor was passed to `close`: `closeJoystick` is not invoked. -/
theorem main_read_failure_never_closes (dev : Device) (maxSamples : Int) (clock : Nat → Int)
    (reads : List (Option input_event)) (what : String)
    (h : (main dev maxSamples clock reads).exit = .uncaught what) :
    (main dev maxSamples clock reads).closed = [] := by
  unfold main at h ⊢
  cases ho : openJoystick dev with
  | error w => rfl
  | ok js =>
    simp only [ho] at h ⊢
    cases hw : warmup 100 js reads with
    | error x => rfl
    | ok p =>
      obtain ⟨js1, rest⟩ := p
      simp only [hw] at h ⊢
      cases hp : pollLoop maxSamples clock (initLoop js1 clock) rest with
      | mk e st =>
        cases e with
        | finished => simp [hp] at h
        | thrown w => rfl
        | starved => rfl

/-- Witness of C3 (behaviour of the code): on `padDevice` a read failure at the
first warm-up read, at the last warm-up read or in the polling loop ends the
run by the uncaught exception with no call of `close`, whereas the run
without a failure ends with one call of `close` on the file descriptor `3`. -/
theorem main_read_failure_never_closes_witness :
    ((main padDevice 0 stepClock failAtWarmup).exit = .uncaught "Failed to read joystick input" ∧
      (main padDevice 0 stepClock failAtWarmup).closed = []) ∧
    ((main padDevice 0 stepClock failAtLastWarmup).exit =
        .uncaught "Failed to read joystick input" ∧
      (main padDevice 0 stepClock failAtLastWarmup).closed = []) ∧
    ((main padDevice 0 stepClock failInLoop).exit = .uncaught "Failed to read joystick input" ∧
      (main padDevice 0 stepClock failInLoop).closed = []) ∧
    ((main padDevice 1 stepClock cleanRun).exit = .returned 0 ∧
      (main padDevice 1 stepClock cleanRun).closed = [3]) := by
  have h1 : (main padDevice 0 stepClock failAtWarmup).exit =
      .uncaught "Failed to read joystick input" := by decide!
  have h2 : (main padDevice 0 stepClock failAtLastWarmup).exit =
      .uncaught "Failed to read joystick input" := by decide!
  have h3 : (main padDevice 0 stepClock failInLoop).exit =
      .uncaught "Failed to read joystick input" := by decide!
  exact ⟨⟨h1, main_read_failure_never_closes _ _ _ _ _ h1⟩,
    ⟨h2, main_read_failure_never_closes _ _ _ _ _ h2⟩,
    ⟨h3, main_read_failure_never_closes _ _ _ _ _ h3⟩, by decide!⟩

end JoystickRate
